import Mathlib

/-!
Verification of `core/scripts/migrate_archives.py` (monzo/dbt-fork).

The script is embedded shallowly: every database-facing call of the script
(`adapter.execute`, `adapter.connections.create_table`,
`adapter.connections.add_begin_query` / `add_commit_query`) is recorded as a
`Stmt` in an emitted trace instead of being sent to a warehouse, and the
file-writing collaborator `dbt.clients.system.make_file` is modelled from the
specification (it is not part of the source tree).  Pure string formatting is
reproduced exactly, with Python `str.format` calls rendered as concatenation.
-/

namespace Migrate

/-- A dbt relation as used by the script: three-part address.  The script
builds new relations with `incorporate(path=..., table_name=new_name)`;
`table_name` always mirrors `identifier` there, so only the address is kept. -/
structure Relation where
  database : String
  schema : String
  identifier : String
deriving DecidableEq, Repr

/-- Rendering of a relation in `str.format` position (`{!s}` / `{}`):
the dotted three-part name. -/
def Relation.render (r : Relation) : String :=
  r.database ++ "." ++ r.schema ++ "." ++ r.identifier

/-- The adapter as the script observes it: its backend type string, its
identifier quoting function (`adapter.quote`) and the policy-dependent
quoting function (`adapter.quote_as_configured`, taking the value and the
component name). -/
structure Adapter where
  type : String
  quote : String → String
  quote_as_configured : String → String → String

/-- One database-facing call recorded in the trace. -/
inductive Stmt where
  | execute (sql : String)
  | createTable (database : String) (schema : String) (table_name : String) (sql : String)
  | beginTx
  | commitTx
deriving DecidableEq, Repr

/-- `RENAME_COLUMNS`: the fixed ordered tuple of (old, new) column pairs. -/
def RENAME_COLUMNS : List (String × String) :=
  [("valid_from", "dbt_valid_from"),
   ("valid_to", "dbt_valid_to"),
   ("scd_id", "dbt_scd_id")]

/-- `backup_relation(adapter, archive_target)`: computes the backup name,
builds the backup relation, unconditionally issues
`create table <backup> as (select * from <target>)`, and returns the backup
relation.  (The Python body performs no existence check before executing.) -/
def backup_relation (adapter : Adapter) (archive_target : Relation) :
    List Stmt × Relation :=
  let new_name := archive_target.identifier ++ "_dbt_archive_migration_backup"
  let backup : Relation :=
    { archive_target with identifier := new_name }
  ([Stmt.execute ("create table " ++ backup.render ++ " as (select * from "
      ++ archive_target.render ++ ")")],
   backup)

/-- `migrate_archive_alter_table(adapter, archive_target)`: extends a local
copy of `RENAME_COLUMNS` with the identity pair for snowflake, then issues one
`alter table ... rename column` statement per pair, in list order. -/
def migrate_archive_alter_table (adapter : Adapter) (archive_target : Relation) :
    List Stmt :=
  let renames := RENAME_COLUMNS ++
    (if adapter.type = "snowflake" then [("dbt_updated_at", "dbt_updated_at")] else [])
  renames.map (fun p =>
    Stmt.execute ("alter table " ++ archive_target.render ++ " rename column "
      ++ adapter.quote p.1 ++ " to " ++ p.2))

/-- `migrate_archive_bigquery(adapter, archive_target)`: one
`create_table` call materializing a `select * EXCEPT(...)` projection built
from `RENAME_COLUMNS` back into the same address. -/
def migrate_archive_bigquery (adapter : Adapter) (archive_target : Relation) :
    List Stmt :=
  let except_str :=
    String.intercalate ", " (RENAME_COLUMNS.map (fun p => adapter.quote p.1))
  let rename_str :=
    String.intercalate ", "
      (RENAME_COLUMNS.map (fun p => adapter.quote p.1 ++ " as " ++ p.2))
  let sql := "select * EXCEPT(" ++ except_str ++ "), " ++ rename_str
    ++ " from " ++ archive_target.render
  [Stmt.createTable archive_target.database archive_target.schema
    archive_target.identifier sql]

/-- `migrate_archive_table(adapter, archive_target)`: dispatch on the backend
type string; bigquery gets the projection rebuild, every other type the
alter-table strategy. -/
def migrate_archive_table (adapter : Adapter) (archive_target : Relation) :
    List Stmt :=
  if adapter.type = "bigquery" then migrate_archive_bigquery adapter archive_target
  else migrate_archive_alter_table adapter archive_target

/-- The two rename-strategy variants of the specification. -/
inductive RenameStrategy where
  | alterRename
  | projectionRecreate
deriving DecidableEq, Repr

/-- The strategy `migrate_archive_table` applies for a backend type: the
`if adapter.type() == 'bigquery'` branch of the source. -/
def selectRenameStrategy (backendType : String) : RenameStrategy :=
  if backendType = "bigquery" then RenameStrategy.projectionRecreate
  else RenameStrategy.alterRename

/-- `perform_table_migration(adapter, target)`: begin query for non-bigquery,
backup, rename migration, commit query for non-bigquery; returns the backup
relation. -/
def perform_table_migration (adapter : Adapter) (target : Relation) :
    List Stmt × Relation :=
  let pre := if adapter.type ≠ "bigquery" then [Stmt.beginTx] else []
  let backed := backup_relation adapter target
  let migrateStmts := migrate_archive_table adapter target
  let post := if adapter.type ≠ "bigquery" then [Stmt.commitTx] else []
  (pre ++ backed.1 ++ migrateStmts ++ post, backed.2)

/-- A raw table entry of an archive group, as it appears in
`dbt_project.yml` (`archive[...][`tables`]` items, before the four address
fields are merged in). -/
structure RawTable where
  source_table : String
  target_table : String
  unique_key : String
  updated_at : String
deriving DecidableEq, Repr

/-- An archive group of the project configuration (`cfg.archive` items).
Optional fields model dict keys that may be absent: `archive.get(key, d)`
reads them with a default, `archive[key]` raises on absence. -/
structure ArchiveGroup where
  target_database : Option String
  target_schema : Option String
  source_database : Option String
  source_schema : Option String
  tables : List RawTable
deriving DecidableEq, Repr

/-- The error the script surfaces while expanding configuration: a Python
`KeyError` on `archive[field]`, carrying the missing field name (the
configuration-error kind of the design). -/
inductive ConfigError where
  | missingField (field : String)
deriving DecidableEq, Repr

/-- A fully resolved per-table config: `table.copy()` plus the four resolved
address fields merged in. -/
structure ArchiveSpec where
  raw : RawTable
  target_database : String
  target_schema : String
  source_database : String
  source_schema : String
deriving DecidableEq, Repr

/-- `get_archive_configs(cfg)` run to exhaustion: the specs the generator
yields, in encounter order, paired with the error that stopped it (if any).
For each group, `target_database` / `source_database` fall back to the
default database; `archive[`target_schema`]` and `archive[`source_schema`]`
raise a `KeyError` when absent, before the group's table loop runs. -/
def get_archive_configs (default_database : String) :
    List ArchiveGroup → List ArchiveSpec × Option ConfigError
  | [] => ([], none)
  | g :: rest =>
    let target_database := g.target_database.getD default_database
    match g.target_schema with
    | none => ([], some (ConfigError.missingField "target_schema"))
    | some target_schema =>
      let source_database := g.source_database.getD default_database
      match g.source_schema with
      | none => ([], some (ConfigError.missingField "source_schema"))
      | some source_schema =>
        let specs := g.tables.map (fun t =>
          { raw := t
            target_database := target_database
            target_schema := target_schema
            source_database := source_database
            source_schema := source_schema : ArchiveSpec })
        let tail := get_archive_configs default_database rest
        (specs ++ tail.1, tail.2)

/-- Python `repr` of a string: the value between single quotes. -/
def pyRepr (s : String) : String := "\x27" ++ s ++ "\x27"

/-- Python `repr` of the `kwargs` dict built in `build_archive_data`, in
insertion order. -/
def kwargsRepr (spec : ArchiveSpec) : String :=
  "\x7b" ++ pyRepr "target_database" ++ ": " ++ pyRepr spec.target_database
    ++ ", " ++ pyRepr "target_schema" ++ ": " ++ pyRepr spec.target_schema
    ++ ", " ++ pyRepr "updated_at" ++ ": " ++ pyRepr spec.raw.updated_at
    ++ ", " ++ pyRepr "strategy" ++ ": " ++ pyRepr "timestamp"
    ++ ", " ++ pyRepr "unique_key" ++ ": " ++ pyRepr spec.raw.unique_key
    ++ "\x7d"

/-- `build_archive_data(adapter, archive)`: the module-level `template` with
`source_relation`, `kwargs` and `name` substituted (`\x7b\x7b` in the template
is the escaped literal brace of `str.format`). -/
def build_archive_data (adapter : Adapter) (spec : ArchiveSpec) : String :=
  let source_relation := String.intercalate "."
    [adapter.quote_as_configured spec.source_database "database",
     adapter.quote_as_configured spec.source_schema "schema",
     adapter.quote_as_configured spec.raw.source_table "identifier"]
  "\n\x7b% archive " ++ spec.raw.target_table ++ " %\x7d\n    \x7b\x7b\n        config("
    ++ kwargsRepr spec ++ ")\n    \x7d\x7d\n    select * from "
    ++ source_relation ++ "\n\x7b% endarchive %\x7d\n"

/-- `collect_migration_targets(adapter, cfg)` run to exhaustion: one
(target relation, file contents) pair per spec the plan builder yields,
paired with the error that stopped the underlying generator (if any). -/
def collect_migration_targets (adapter : Adapter) (default_database : String)
    (archives : List ArchiveGroup) :
    List (Relation × String) × Option ConfigError :=
  let configs := get_archive_configs default_database archives
  (configs.1.map (fun spec =>
    ({ database := spec.target_database
       schema := spec.target_schema
       identifier := spec.raw.target_table : Relation },
     build_archive_data adapter spec)),
   configs.2)

/-- The on-disk state the run touches: the files that exist, as
(path, contents) pairs. -/
abbrev FS := List (String × String)

/-- Whether a path exists in the file state. -/
def FS.hasPath (fs : FS) (path : String) : Bool :=
  fs.any (fun e => e.1 = path)

/-- Modelled from the spec: the external file-writing collaborator
`dbt.clients.system.make_file` (dbt code outside the source tree):
`makeFile(path, contents) → bool (true if newly written); idempotent no-op if
the file already exists (does not overwrite)`. -/
def make_file (fs : FS) (path : String) (contents : String) : FS × Bool :=
  if fs.hasPath path then (fs, false)
  else ((path, contents) :: fs, true)

/-- `os.path.join` on a directory and a relative file name. -/
def os_path_join (dir name : String) : String := dir ++ "/" ++ name

/-- `write_migration_file(target, archive_path, contents)`: joins the archive
directory with `identifier + `.sql``, hands the contents to `make_file`, and
returns `target` — the `wrote` boolean only selects the log message. -/
def write_migration_file (fs : FS) (target : Relation) (archive_path : String)
    (contents : String) : FS × Relation :=
  let path := os_path_join archive_path (target.identifier ++ ".sql")
  let written := make_file fs path contents
  (written.1, target)

/-- The two boolean flags `main` reads from `parse_args()`; both default to
true, and `--no-files` / `--no-database-operations` store false. -/
structure Args where
  write_files : Bool
  migrate_database : Bool
deriving DecidableEq, Repr

/-- `parse_args()` restricted to the two `store_false` flags the orchestrator
consumes. -/
def parse_args (argv : List String) : Args :=
  { write_files := ! argv.contains "--no-files"
    migrate_database := ! argv.contains "--no-database-operations" }

/-- The observable outcome of a run: the two report lists `main` accumulates,
the database statements issued, and the final file state. -/
structure RunResult where
  backups_made : List Relation
  archives_written : List Relation
  statements : List Stmt
  fs : FS
deriving DecidableEq

/-- The body of `main`'s `for target, contents in ...` loop, folded over the
collected targets in order. -/
def main_loop (parsed : Args) (adapter : Adapter) (archive_path : String) :
    List (Relation × String) → FS → RunResult
  | [], fs =>
    { backups_made := [], archives_written := [], statements := [], fs := fs }
  | (target, contents) :: rest, fs =>
    let dbPart : List Stmt × List Relation :=
      if parsed.migrate_database then
        let migrated := perform_table_migration adapter target
        (migrated.1, [migrated.2])
      else ([], [])
    let filePart : FS × List Relation :=
      if parsed.write_files then
        let written := write_migration_file fs target archive_path contents
        (written.1, [written.2])
      else (fs, [])
    let tail := main_loop parsed adapter archive_path rest filePart.1
    { backups_made := dbPart.2 ++ tail.backups_made
      archives_written := filePart.2 ++ tail.archives_written
      statements := dbPart.1 ++ tail.statements
      fs := tail.fs }

/-- `main()` after logger and adapter setup: expand the configuration, run the
per-table loop over every target collected before any configuration error, and
report that error (the loop body runs for all targets the lazy generator
yielded before raising). -/
def main (argv : List String) (adapter : Adapter) (default_database : String)
    (archives : List ArchiveGroup) (archive_path : String) (fs : FS) :
    RunResult × Option ConfigError :=
  let parsed := parse_args argv
  let targets := collect_migration_targets adapter default_database archives
  (main_loop parsed adapter archive_path targets.1 fs, targets.2)

/-- A concrete adapter whose quoting functions are the identity, with a
backend type that is none of the mentioned variants. -/
def plainAdapter (ty : String) : Adapter :=
  { type := ty, quote := fun s => s, quote_as_configured := fun s _ => s }

/-- A concrete archive target used by witnesses and counterexamples. -/
def eventsTable : Relation :=
  { database := "db", schema := "sch", identifier := "events" }

/-- C1 (counterexample): calling the backup operation twice in succession for
the same source table issues the `create table ... as (select * from ...)`
statement on the second call as well — the combined trace of the two calls
holds the statement twice, so the second call does not stop before issuing
`CREATE TABLE`, contradicting the claim that no `CREATE TABLE` is issued when
the computed backup name already names an existing table. -/
theorem backup_second_call_still_issues_create_table :
    (backup_relation (plainAdapter "postgres") eventsTable).1 ++
      (backup_relation (plainAdapter "postgres") eventsTable).1 =
    [Stmt.execute ("create table db.sch.events_dbt_archive_migration_backup"
        ++ " as (select * from db.sch.events)"),
     Stmt.execute ("create table db.sch.events_dbt_archive_migration_backup"
        ++ " as (select * from db.sch.events)")] := by
  rfl

/-- C1 (amended): the backup operation performs no existence precondition and
raises no `BackupConflictError` of its own: for every adapter and target —
in particular on a second call in succession, when the backup already exists —
it unconditionally issues exactly one `create table <backup> as (select * from
<source>)` statement for the deterministically computed backup name, touching
the source only through the `select`, and returns the backup relation.  Any
conflict is rejected by the database executing that statement, not by the
script before issuing it. -/
theorem backup_relation_unconditionally_creates (a : Adapter) (t : Relation) :
    (backup_relation a t).1 =
      [Stmt.execute ("create table " ++ t.database ++ "." ++ t.schema ++ "."
        ++ t.identifier ++ "_dbt_archive_migration_backup as (select * from "
        ++ t.render ++ ")")] ∧
    (backup_relation a t).2 =
      { t with identifier := t.identifier ++ "_dbt_archive_migration_backup" } := by
  constructor
  · simp [backup_relation, Relation.render, String.append_assoc]
  · rfl

/-- C2 (counterexample): a backend identifier that is none of the supported
variants does not fail: strategy selection silently defaults it to the
alter-rename strategy, and the migration dispatch runs that strategy. -/
theorem unknown_backend_silently_defaults :
    selectRenameStrategy "duckdb" = RenameStrategy.alterRename ∧
    migrate_archive_table (plainAdapter "duckdb") eventsTable =
      migrate_archive_alter_table (plainAdapter "duckdb") eventsTable := by
  exact ⟨rfl, rfl⟩

/-- C2 (amended): strategy selection is total and never raises a
`ConfigurationError`: `bigquery` selects the projection-recreate strategy and
every other backend identifier — known or unknown — silently defaults to the
alter-rename strategy; the dispatch in `migrate_archive_table` follows the
same branch. -/
theorem rename_strategy_selection_total (b : String) (a : Adapter) (t : Relation) :
    (b ≠ "bigquery" → selectRenameStrategy b = RenameStrategy.alterRename) ∧
    (b = "bigquery" → selectRenameStrategy b = RenameStrategy.projectionRecreate) ∧
    (a.type ≠ "bigquery" →
      migrate_archive_table a t = migrate_archive_alter_table a t) ∧
    (a.type = "bigquery" →
      migrate_archive_table a t = migrate_archive_bigquery a t) := by
  refine ⟨fun h => ?_, fun h => ?_, fun h => ?_, fun h => ?_⟩ <;>
    simp [selectRenameStrategy, migrate_archive_table, h]

/-- C2 (witness): the amended statement at the concrete unknown backend
identifier `duckdb`. -/
theorem rename_strategy_selection_total_witness :
    selectRenameStrategy "duckdb" = RenameStrategy.alterRename :=
  (rename_strategy_selection_total "duckdb" (plainAdapter "duckdb") eventsTable).1
    (by decide)

/-- C3 (counterexample): the backup name for the source identifier `events`
is not `events` with the suffix `_migration_backup` appended: the code appends
`_dbt_archive_migration_backup` instead. -/
theorem backup_name_suffix_differs :
    (backup_relation (plainAdapter "postgres") eventsTable).2.identifier ≠
      "events" ++ "_migration_backup" := by
  decide

/-- C3 (amended): the backup operation computes the backup name
deterministically as the source identifier with the suffix
`_dbt_archive_migration_backup` appended, returns a relation carrying exactly
that name at the source address, and two sources with distinct identifiers
never map to the same backup name. -/
theorem backup_name_deterministic_and_injective
    (a a2 : Adapter) (t t2 : Relation) (h : t.identifier ≠ t2.identifier) :
    (backup_relation a t).2 =
      { database := t.database, schema := t.schema,
        identifier := t.identifier ++ "_dbt_archive_migration_backup" } ∧
    (backup_relation a2 t).2.identifier = (backup_relation a t).2.identifier ∧
    (backup_relation a t).2.identifier ≠ (backup_relation a2 t2).2.identifier := by
  refine ⟨rfl, rfl, ?_⟩
  intro hEq
  apply h
  have hdata := congrArg String.data hEq
  simp only [backup_relation, String.data_append] at hdata
  have := List.append_cancel_right hdata
  exact String.ext this

/-- C3 (witness): the amended statement at two concrete sources with distinct
identifiers. -/
theorem backup_name_deterministic_and_injective_witness :
    (backup_relation (plainAdapter "postgres") eventsTable).2.identifier ≠
      (backup_relation (plainAdapter "postgres")
        { database := "db", schema := "sch", identifier := "users" }).2.identifier :=
  (backup_name_deterministic_and_injective (plainAdapter "postgres")
    (plainAdapter "postgres") eventsTable
    { database := "db", schema := "sch", identifier := "users" }
    (by decide)).2.2

/-- C4 (confirmed): the alter-rename strategy issues exactly one rename
statement per pair of the fixed mapping `valid_from→dbt_valid_from`,
`valid_to→dbt_valid_to`, `scd_id→dbt_scd_id`, in that list order, and for the
`snowflake` backend — and no other — a fourth identity rename
`dbt_updated_at→dbt_updated_at` is appended and issued last. -/
theorem alter_rename_statement_sequence (a : Adapter) (t : Relation) :
    migrate_archive_alter_table a t =
      [Stmt.execute ("alter table " ++ t.render ++ " rename column "
          ++ a.quote "valid_from" ++ " to " ++ "dbt_valid_from"),
       Stmt.execute ("alter table " ++ t.render ++ " rename column "
          ++ a.quote "valid_to" ++ " to " ++ "dbt_valid_to"),
       Stmt.execute ("alter table " ++ t.render ++ " rename column "
          ++ a.quote "scd_id" ++ " to " ++ "dbt_scd_id")]
      ++ (if a.type = "snowflake" then
            [Stmt.execute ("alter table " ++ t.render ++ " rename column "
              ++ a.quote "dbt_updated_at" ++ " to " ++ "dbt_updated_at")]
          else []) ∧
    (migrate_archive_alter_table a t).length =
      (if a.type = "snowflake" then 4 else 3) := by
  constructor
  · simp only [migrate_archive_alter_table, RENAME_COLUMNS]
    split <;> simp
  · simp only [migrate_archive_alter_table, RENAME_COLUMNS]
    split <;> simp

/-- C9 (confirmed): appending the snowflake identity pair extends a local copy
only: the shared mapping `RENAME_COLUMNS` holds exactly the original three
pairs, a snowflake run over two tables builds the second table's statements
from the original three pairs again (4 statements, not 5), any subsequent
alter-rename invocation for a non-snowflake backend observes exactly the
three-pair mapping, and the statements a run issues for a later table do not
depend on the tables migrated before it. -/
theorem rename_mapping_never_mutated (a b : Adapter) (t u v : Relation)
    (args : Args) (archive_path c1 c2 : String) (fs : FS)
    (hsnow : a.type = "snowflake") (hb : b.type ≠ "snowflake") :
    RENAME_COLUMNS =
      [("valid_from", "dbt_valid_from"), ("valid_to", "dbt_valid_to"),
       ("scd_id", "dbt_scd_id")] ∧
    migrate_archive_alter_table a u =
      (RENAME_COLUMNS ++ [("dbt_updated_at", "dbt_updated_at")]).map (fun p =>
        Stmt.execute ("alter table " ++ u.render ++ " rename column "
          ++ a.quote p.1 ++ " to " ++ p.2)) ∧
    migrate_archive_alter_table b v =
      RENAME_COLUMNS.map (fun p =>
        Stmt.execute ("alter table " ++ v.render ++ " rename column "
          ++ b.quote p.1 ++ " to " ++ p.2)) ∧
    (args.migrate_database = true →
      (main_loop args a archive_path [(t, c1), (u, c2)] fs).statements =
        (perform_table_migration a t).1 ++ (perform_table_migration a u).1) := by
  refine ⟨rfl, ?_, ?_, fun hdb => ?_⟩
  · simp [migrate_archive_alter_table, hsnow]
  · simp [migrate_archive_alter_table, hb]
  · simp [main_loop, hdb]

/-- C9 (witness): the statement at a concrete snowflake adapter followed by a
concrete postgres adapter. -/
theorem rename_mapping_never_mutated_witness :
    migrate_archive_alter_table (plainAdapter "postgres") eventsTable =
      RENAME_COLUMNS.map (fun p =>
        Stmt.execute ("alter table " ++ eventsTable.render ++ " rename column "
          ++ (plainAdapter "postgres").quote p.1 ++ " to " ++ p.2)) :=
  (rename_mapping_never_mutated (plainAdapter "snowflake") (plainAdapter "postgres")
    eventsTable eventsTable eventsTable
    { write_files := true, migrate_database := true } "arch" "c1" "c2" []
    rfl (by decide)).2.2.1

/-- A concrete raw table entry used by witnesses and counterexamples. -/
def sampleRawTable : RawTable :=
  { source_table := "src_tbl", target_table := "snap",
    unique_key := "id", updated_at := "updated_ts" }

/-- C5 (confirmed): for every archive group at the head of the remaining
configuration, the plan builder resolves an absent `target_database` /
`source_database` to the default database in every spec it yields for that
group, and a group missing `target_schema` (or `source_schema`) stops the
expansion with an error naming the missing field before any spec of that
group is yielded. -/
theorem plan_builder_defaults_and_required_fields
    (D : String) (g : ArchiveGroup) (rest : List ArchiveGroup) :
    (g.target_schema = none →
      get_archive_configs D (g :: rest) =
        ([], some (ConfigError.missingField "target_schema"))) ∧
    (∀ ts, g.target_schema = some ts → g.source_schema = none →
      get_archive_configs D (g :: rest) =
        ([], some (ConfigError.missingField "source_schema"))) ∧
    (∀ ts ss, g.target_schema = some ts → g.source_schema = some ss →
      get_archive_configs D (g :: rest) =
        (g.tables.map (fun tb =>
          { raw := tb
            target_database := g.target_database.getD D
            target_schema := ts
            source_database := g.source_database.getD D
            source_schema := ss }) ++ (get_archive_configs D rest).1,
         (get_archive_configs D rest).2) ∧
      (g.target_database = none → g.source_database = none →
        ∀ s ∈ ((get_archive_configs D (g :: rest)).1.take g.tables.length),
          s.target_database = D ∧ s.source_database = D)) := by
  refine ⟨fun h1 => ?_, fun ts h1 h2 => ?_, fun ts ss h1 h2 => ⟨?_, fun hdb hsdb s hs => ?_⟩⟩
  · simp [get_archive_configs, h1]
  · simp [get_archive_configs, h1, h2]
  · simp [get_archive_configs, h1, h2]
  · simp only [get_archive_configs, h1, h2] at hs
    rw [show g.tables.length = (g.tables.map (fun tb =>
          { raw := tb
            target_database := g.target_database.getD D
            target_schema := ts
            source_database := g.source_database.getD D
            source_schema := ss : ArchiveSpec })).length by simp,
        List.take_left] at hs
    rcases List.mem_map.mp hs with ⟨tb, _, rfl⟩
    simp [hdb, hsdb]

/-- C5 (witness): the statement at a concrete configuration: a group missing
`target_schema` stops with the error naming it, and a group with both
databases absent yields its one spec with both databases defaulted. -/
theorem plan_builder_defaults_and_required_fields_witness :
    get_archive_configs "defdb"
      [{ target_database := some "x", target_schema := none,
         source_database := none, source_schema := some "ssch",
         tables := [sampleRawTable] }] =
      ([], some (ConfigError.missingField "target_schema")) ∧
    (get_archive_configs "defdb"
      [{ target_database := none, target_schema := some "tsch",
         source_database := none, source_schema := some "ssch",
         tables := [sampleRawTable] }]).1 =
      [{ raw := sampleRawTable, target_database := "defdb",
         target_schema := "tsch", source_database := "defdb",
         source_schema := "ssch" }] := by
  constructor
  · exact (plan_builder_defaults_and_required_fields "defdb"
      { target_database := some "x", target_schema := none,
        source_database := none, source_schema := some "ssch",
        tables := [sampleRawTable] } []).1 rfl
  · have h := ((plan_builder_defaults_and_required_fields "defdb"
      { target_database := none, target_schema := some "tsch",
        source_database := none, source_schema := some "ssch",
        tables := [sampleRawTable] } []).2.2 "tsch" "ssch" rfl rfl).1
    rw [congrArg Prod.fst h]
    rfl

/-- Every statement the backup step or the rename migration emits is an
`execute` or a `createTable` call: neither ever emits a transaction-boundary
statement. -/
theorem no_tx_in_backup_or_migrate (a : Adapter) (t : Relation) :
    Stmt.beginTx ∉ (backup_relation a t).1 ++ migrate_archive_table a t ∧
    Stmt.commitTx ∉ (backup_relation a t).1 ++ migrate_archive_table a t := by
  constructor <;>
  · intro hmem
    rcases List.mem_append.mp hmem with h | h
    · simp [backup_relation] at h
    · unfold migrate_archive_table at h
      split at h
      · simp [migrate_archive_bigquery] at h
      · rcases List.mem_map.mp h with ⟨p, _, hp⟩
        exact Stmt.noConfusion hp

/-- The statements a database-enabled run issues are the concatenation of each
table's `perform_table_migration` trace, in configuration order. -/
theorem main_loop_statements_flatMap (args : Args) (a : Adapter)
    (archive_path : String) (targets : List (Relation × String)) (fs : FS)
    (h : args.migrate_database = true) :
    (main_loop args a archive_path targets fs).statements =
      targets.flatMap (fun tc => (perform_table_migration a tc.1).1) := by
  induction targets generalizing fs with
  | nil => simp [main_loop]
  | cons hd tl ih => simp [main_loop, h, ih]

/-- C8 (confirmed): for every backend other than `bigquery` each table's
migration trace is exactly one begin statement, then the backup and rename
statements (which contain no boundary statements, so begin and commit each
occur exactly once), then one commit statement; `bigquery` gets no boundary
statements; and a database-enabled run concatenates these per-table traces, so
no boundary spans more than one table. -/
theorem transaction_boundaries_bracket_each_table (a : Adapter) (t : Relation)
    (args : Args) (archive_path : String) (targets : List (Relation × String))
    (fs : FS) (hdb : args.migrate_database = true) :
    (a.type ≠ "bigquery" →
      (perform_table_migration a t).1 =
        Stmt.beginTx ::
          ((backup_relation a t).1 ++ migrate_archive_table a t ++ [Stmt.commitTx]) ∧
      (perform_table_migration a t).1.count Stmt.beginTx = 1 ∧
      (perform_table_migration a t).1.count Stmt.commitTx = 1) ∧
    (a.type = "bigquery" →
      Stmt.beginTx ∉ (perform_table_migration a t).1 ∧
      Stmt.commitTx ∉ (perform_table_migration a t).1) ∧
    (main_loop args a archive_path targets fs).statements =
      targets.flatMap (fun tc => (perform_table_migration a tc.1).1) := by
  refine ⟨fun h => ?_, fun h => ?_,
    main_loop_statements_flatMap args a archive_path targets fs hdb⟩
  · have htrace : (perform_table_migration a t).1 =
        Stmt.beginTx ::
          ((backup_relation a t).1 ++ migrate_archive_table a t ++ [Stmt.commitTx]) := by
      simp [perform_table_migration, h]
    rcases no_tx_in_backup_or_migrate a t with ⟨hb, hc⟩
    rw [List.mem_append] at hb hc
    push_neg at hb hc
    refine ⟨htrace, ?_, ?_⟩ <;> rw [htrace] <;>
      simp [List.count_cons, List.count_append,
        List.count_eq_zero.mpr hb.1, List.count_eq_zero.mpr hb.2,
        List.count_eq_zero.mpr hc.1, List.count_eq_zero.mpr hc.2]
  · have htrace : (perform_table_migration a t).1 =
        (backup_relation a t).1 ++ migrate_archive_table a t := by
      simp [perform_table_migration, h]
    rw [htrace]
    exact no_tx_in_backup_or_migrate a t

/-- C8 (witness): the statement at a concrete postgres adapter and a
single-table run. -/
theorem transaction_boundaries_bracket_each_table_witness :
    (perform_table_migration (plainAdapter "postgres") eventsTable).1.count
      Stmt.beginTx = 1 :=
  ((transaction_boundaries_bracket_each_table (plainAdapter "postgres") eventsTable
    { write_files := false, migrate_database := true } "arch" [] [] rfl).1
    (by decide)).2.1

/-- A concrete single-table archive group used by witnesses and
counterexamples. -/
def snapGroup : ArchiveGroup :=
  { target_database := none, target_schema := some "tsch",
    source_database := none, source_schema := some "ssch",
    tables := [sampleRawTable] }

/-- C6 (counterexample): a run with file emission enabled over one table whose
definition file already exists records the target in `archives_written` even
though the file-writing collaborator wrote nothing: the final file state is
unchanged (the existing `arch/snap.sql` keeps its stale contents), yet the
end-of-run summary lists the entry. -/
theorem definition_recorded_without_file_write :
    (main ["--no-database-operations"] (plainAdapter "postgres") "D" [snapGroup]
        "arch" [("arch/snap.sql", "stale")]).1.archives_written =
      [{ database := "D", schema := "tsch", identifier := "snap" }] ∧
    (main ["--no-database-operations"] (plainAdapter "postgres") "D" [snapGroup]
        "arch" [("arch/snap.sql", "stale")]).1.fs =
      [("arch/snap.sql", "stale")] := by
  exact ⟨rfl, rfl⟩

/-- C6 (amended): for every table processed with file emission enabled the
target relation is recorded in `archives_written` unconditionally — whether or
not the file-writing collaborator actually wrote the file.  The collaborator's
boolean only selects the log message, so the end-of-run summary lists every
table for which emission was attempted, including those whose definition file
already existed and was left untouched. -/
theorem archives_written_records_every_target (args : Args) (a : Adapter)
    (archive_path : String) (targets : List (Relation × String)) (fs : FS)
    (h : args.write_files = true) :
    (main_loop args a archive_path targets fs).archives_written =
      targets.map Prod.fst := by
  induction targets generalizing fs with
  | nil => simp [main_loop]
  | cons hd tl ih => simp [main_loop, h, write_migration_file, ih]

/-- C6 (witness): the amended statement at a concrete run whose one
definition file already exists. -/
theorem archives_written_records_every_target_witness :
    (main_loop { write_files := true, migrate_database := false }
        (plainAdapter "postgres") "arch" [(eventsTable, "contents")]
        [("arch/events.sql", "stale")]).archives_written = [eventsTable] :=
  archives_written_records_every_target
    { write_files := true, migrate_database := false }
    (plainAdapter "postgres") "arch" [(eventsTable, "contents")]
    [("arch/events.sql", "stale")] rfl

/-- C7 (confirmed): a run over one archive group with one table, with
`--no-database-operations` set and `--no-files` unset, makes no backup, issues
no database statement at all, and writes exactly one definition file: the
whole outcome is the one recorded target and the one new file. -/
theorem no_database_operations_run (argv : List String) (a : Adapter)
    (D ts ss archive_path : String) (odb osdb : Option String) (rt : RawTable)
    (fs : FS)
    (h1 : argv.contains "--no-database-operations" = true)
    (h2 : argv.contains "--no-files" = false)
    (h3 : fs.hasPath (os_path_join archive_path (rt.target_table ++ ".sql")) = false) :
    main argv a D
      [{ target_database := odb, target_schema := some ts,
         source_database := osdb, source_schema := some ss, tables := [rt] }]
      archive_path fs =
      ({ backups_made := []
         archives_written :=
           [{ database := odb.getD D, schema := ts, identifier := rt.target_table }]
         statements := []
         fs := (os_path_join archive_path (rt.target_table ++ ".sql"),
                build_archive_data a
                  { raw := rt, target_database := odb.getD D, target_schema := ts,
                    source_database := osdb.getD D, source_schema := ss }) :: fs },
       none) := by
  have h1m : "--no-database-operations" ∈ argv := by
    simpa using h1
  have h2m : "--no-files" ∉ argv := by
    simpa using h2
  simp [main, parse_args, h1m, h2m, collect_migration_targets, get_archive_configs,
        main_loop, write_migration_file, make_file, h3]

/-- C7 (witness): the statement at a concrete flag list, adapter, group and an
empty initial file state. -/
theorem no_database_operations_run_witness :
    main ["--no-database-operations"] (plainAdapter "postgres") "D"
      [snapGroup] "arch" [] =
      ({ backups_made := []
         archives_written := [{ database := "D", schema := "tsch", identifier := "snap" }]
         statements := []
         fs := [("arch/snap.sql",
                 build_archive_data (plainAdapter "postgres")
                   { raw := sampleRawTable, target_database := "D",
                     target_schema := "tsch", source_database := "D",
                     source_schema := "ssch" })] },
       none) :=
  no_database_operations_run ["--no-database-operations"] (plainAdapter "postgres")
    "D" "tsch" "ssch" "arch" none none sampleRawTable [] rfl rfl rfl

/-- C10 (confirmed): the definition file path is the archive directory joined
with the target identifier plus `.sql`, independent of the target database and
schema; two targets sharing an identifier resolve to the same path, and after
the first is written (or found existing) the second write is a no-op on the
file state — an existing file is never overwritten. -/
theorem definition_path_ignores_database_and_schema
    (t1 t2 : Relation) (archive_path c1 c2 : String) (fs : FS)
    (h : t1.identifier = t2.identifier) :
    os_path_join archive_path (t1.identifier ++ ".sql") =
      os_path_join archive_path (t2.identifier ++ ".sql") ∧
    (write_migration_file ([] : FS) t1 archive_path c1).1 =
      [(os_path_join archive_path (t1.identifier ++ ".sql"), c1)] ∧
    write_migration_file (write_migration_file fs t1 archive_path c1).1 t2
        archive_path c2 =
      ((write_migration_file fs t1 archive_path c1).1, t2) := by
  refine ⟨by rw [h], by simp [write_migration_file, make_file, FS.hasPath], ?_⟩
  unfold write_migration_file make_file FS.hasPath
  simp only [← h]
  by_cases hIn :
      (fs.any fun e => e.1 = os_path_join archive_path (t1.identifier ++ ".sql")) = true
  · simp [hIn]
  · simp [hIn]

/-- C10 (witness): the statement at two concrete targets sharing the
identifier but differing in database and schema: the second write leaves the
file state unchanged. -/
theorem definition_path_ignores_database_and_schema_witness :
    write_migration_file
      (write_migration_file ([] : FS)
        { database := "dbA", schema := "schA", identifier := "snap" } "arch" "one").1
      { database := "dbB", schema := "schB", identifier := "snap" } "arch" "two" =
      ((write_migration_file ([] : FS)
        { database := "dbA", schema := "schA", identifier := "snap" } "arch" "one").1,
       { database := "dbB", schema := "schB", identifier := "snap" }) :=
  (definition_path_ignores_database_and_schema
    { database := "dbA", schema := "schA", identifier := "snap" }
    { database := "dbB", schema := "schB", identifier := "snap" }
    "arch" "one" "two" [] rfl).2.2

end Migrate
